import Mathlib

/-!
Verification of the movie-scraping pipeline (`src/scraper.py`).

The Python program is embedded shallowly:

* JSON payloads become the inductive type `Json`; numbers are modelled as
  rationals (`ℚ`), so floating-point rounding is outside the model.
* A Python `dict` is an association list; `dict.get(k)` returning `None`
  for a missing key and a stored JSON `null` are both `Option`-`none` /
  `Json.null` as appropriate.
* Code that can raise returns `Except String α`; the error string names the
  Python exception that would be raised.
* HTTP calls are oracles passed as arguments: `get_omdb_record` receives the
  `(status, body)` pair the request would produce and additionally reports
  whether the request was actually issued; `discover_movies` receives a
  `fetch` function from (year, page) to the response body.
* Cast and crew entries are modelled with exactly the fields the code reads
  (`order`/`popularity` resp. `job`/`popularity`); the cast fields are typed
  numeric because the Python sort would raise on non-numeric keys.
-/

namespace MovieScrape

/-- A JSON value, as produced by `response.json()`.  Numbers are rationals. -/
inductive Json where
  | null
  | bool (b : Bool)
  | num (q : ℚ)
  | str (s : String)
  | arr (elems : List Json)
  | obj (fields : List (String × Json))

/-- Scalar JSON values: the only values Python can place in a `set`
(lists and dicts are unhashable and make `set.add` raise `TypeError`). -/
inductive JScalar where
  | null
  | bool (b : Bool)
  | num (q : ℚ)
  | str (s : String)
deriving DecidableEq

/-- `dict.get(k)`: first binding of the key in the association list
(a parsed JSON object never has duplicate keys). -/
def lookupField : List (String × Json) → String → Option Json
  | [], _ => none
  | (k, v) :: rest, key => if k = key then some v else lookupField rest key

/-- Statement-side accessor: the value a Python `dict.get(key)` yields on an
object payload, `none` on any other payload shape. -/
def Json.getField (j : Json) (key : String) : Option Json :=
  match j with
  | .obj fs => lookupField fs key
  | _ => none

/-- Python truthiness of a fetched field (`if not imdb_id`, line 84):
missing key, `null`, `False`, `0`, `""`, `[]` and `\x7b\x7d` are falsy. -/
def pyTruthy : Option Json → Bool
  | none => false
  | some .null => false
  | some (.bool b) => b
  | some (.num q) => !(q == 0)
  | some (.str s) => !(s == "")
  | some (.arr xs) => !xs.isEmpty
  | some (.obj fs) => !fs.isEmpty

/-- Python `value == "literal-string"`: true only for an equal JSON string. -/
def optEqStr (o : Option Json) (t : String) : Bool :=
  match o with
  | some (.str s) => s == t
  | _ => false

/-- Python `value is None` for a JSON value stored in a dict:
only a JSON `null` is Python's `None`. -/
def Json.isNull : Json → Bool
  | .null => true
  | _ => false

/-- Python `data.get(k) not in ("N/A", None)` is false exactly here:
key missing, value `null`, or value the string sentinel `"N/A"`. -/
def isNAorNone : Option Json → Bool
  | none => true
  | some .null => true
  | some (.str s) => s == "N/A"
  | _ => false

/-- `text.replace(c, "")`: removes every occurrence of the character. -/
def stripChar (c : Char) (s : String) : String :=
  ⟨s.data.filter (fun ch => ch ≠ c)⟩

/-- `text.split("/")[0]`: the (possibly empty) prefix before the first slash. -/
def splitSlashHead (s : String) : String :=
  ⟨s.data.takeWhile (fun ch => ch ≠ '/')⟩

/-- Accumulate a decimal digit string; `none` on the first non-digit. -/
def digitsVal : Nat → List Char → Option Nat
  | acc, [] => some acc
  | acc, c :: cs => if c.isDigit then digitsVal (10 * acc + (c.toNat - 48)) cs else none

/-- Strip leading and trailing whitespace, as Python `int`/`float` do. -/
def trimWs (cs : List Char) : List Char :=
  ((cs.dropWhile Char.isWhitespace).reverse.dropWhile Char.isWhitespace).reverse

/-- Python `int(text)` on a decimal string: optional sign then digits;
`none` models the `ValueError` raised on anything else. -/
def pyIntChars : List Char → Option Int
  | [] => none
  | '-' :: cs => if cs = [] then none else (digitsVal 0 cs).map (fun n => -(n : Int))
  | '+' :: cs => if cs = [] then none else (digitsVal 0 cs).map (fun n => (n : Int))
  | cs => (digitsVal 0 cs).map (fun n => (n : Int))

/-- Python `int(text)` (decimal). -/
def pyInt (s : String) : Option Int :=
  pyIntChars (trimWs s.data)

/-- Python `float(text)` restricted to plain decimal notation
(`"8.5"`, `"-3."`, `".5"`); `none` models the `ValueError`. -/
def pyFloatStr (s : String) : Option ℚ :=
  match trimWs s.data with
  | [] => none
  | cs =>
    let sgn : ℚ × List Char :=
      match cs with
      | '-' :: r => (-1, r)
      | '+' :: r => (1, r)
      | r => (1, r)
    let ip := sgn.2.takeWhile (fun ch => ch ≠ '.')
    let rest := sgn.2.dropWhile (fun ch => ch ≠ '.')
    match rest with
    | [] =>
      match digitsVal 0 ip with
      | some n => if ip = [] then none else some (sgn.1 * n)
      | none => none
    | _ :: fp =>
      match digitsVal 0 ip, digitsVal 0 fp with
      | some n, some f =>
        if ip = [] ∧ fp = [] then none
        else some (sgn.1 * ((n : ℚ) + (f : ℚ) / ((10 : ℚ) ^ fp.length)))
      | _, _ => none

/-- Python `float(value)` on a JSON value (numbers pass through, booleans are
ints, strings are parsed; anything else raises `TypeError`). -/
def pyFloatJson : Json → Except String ℚ
  | .num q => .ok q
  | .bool b => .ok (if b then 1 else 0)
  | .str s =>
    match pyFloatStr s with
    | some q => .ok q
    | none => .error "ValueError: could not convert string to float"
  | _ => .error "TypeError: float() argument"

/-- The Catalog-B (OMDb) enrichment record, `scraper.py` lines 109-126.
The empty record returned on the skip paths has every field `none`
(`\x7b\x7d`: in the merged dict the keys are then simply absent — the model
identifies an absent key with a `None` value, as `dict.get` does). -/
structure OmdbRecord where
  imdb_rating : Option ℚ := none
  imdb_votes : Option Int := none
  mpaa_rating : Option Json := none
  domestic_box_office : Option Int := none
  rotten_tomatoes_score : Option Int := none
  metacritic_score : Option Int := none
  awards_text : Option Json := none

/-- The empty enrichment record (`return \x7b\x7d`, lines 85, 95, 99). -/
def emptyOmdb : OmdbRecord := {}

/-- One step of the ratings loop, lines 103-107: on a "Rotten Tomatoes"
entry store `Value.replace("%", "")`, on a "Metacritic" entry store
`Value.split("/")[0]`; a malformed entry raises. -/
def ratingStep (acc : Option String × Option String) (r : Json) :
    Except String (Option String × Option String) :=
  match r with
  | .obj rfs =>
    match lookupField rfs "Source" with
    | none => .error "KeyError: Source"
    | some src =>
      if optEqStr (some src) "Rotten Tomatoes" then
        match lookupField rfs "Value" with
        | none => .error "KeyError: Value"
        | some (.str v) => .ok (some (stripChar '%' v), acc.2)
        | some _ => .error "AttributeError: replace"
      else if optEqStr (some src) "Metacritic" then
        match lookupField rfs "Value" with
        | none => .error "KeyError: Value"
        | some (.str v) => .ok (acc.1, some (splitSlashHead v))
        | some _ => .error "AttributeError: split"
      else .ok acc
  | _ => .error "TypeError: rating entry is not an object"

/-- `int(score) if score else None` (lines 119-124): `None` and the empty
string are falsy and give `None`; any other text is fed to `int`,
which raises on non-numeric input. -/
def intIfTruthy : Option String → Except String (Option Int)
  | none => .ok none
  | some s =>
    if s = "" then .ok none
    else
      match pyInt s with
      | some n => .ok (some n)
      | none => .error "ValueError: invalid literal for int() with base 10"

/-- `float(data["imdbRating"]) if data.get("imdbRating") not in ("N/A", None)
else None` (lines 110-111). -/
def imdbRatingField (fs : List (String × Json)) : Except String (Option ℚ) :=
  match lookupField fs "imdbRating" with
  | none => .ok none
  | some .null => .ok none
  | some (.str "N/A") => .ok none
  | some v => (pyFloatJson v).map some

/-- `int(data["imdbVotes"].replace(",", "")) if ... not in ("N/A", None)
else None` (lines 112-113). -/
def imdbVotesField (fs : List (String × Json)) : Except String (Option Int) :=
  match lookupField fs "imdbVotes" with
  | none => .ok none
  | some .null => .ok none
  | some (.str "N/A") => .ok none
  | some (.str s) =>
    match pyInt (stripChar ',' s) with
    | some n => .ok (some n)
    | none => .error "ValueError: invalid literal for int() with base 10"
  | some _ => .error "AttributeError: replace"

/-- `int(data["BoxOffice"].replace("$", "").replace(",", "")) if ... not in
("N/A", None) else None` (lines 115-118). -/
def boxOfficeField (fs : List (String × Json)) : Except String (Option Int) :=
  match lookupField fs "BoxOffice" with
  | none => .ok none
  | some .null => .ok none
  | some (.str "N/A") => .ok none
  | some (.str s) =>
    match pyInt (stripChar ',' (stripChar '$' s)) with
    | some n => .ok (some n)
    | none => .error "ValueError: invalid literal for int() with base 10"
  | some _ => .error "AttributeError: replace"

/-- Build the populated enrichment record from a 200/"True" payload,
lines 101-126: run the ratings loop, then evaluate the record fields in
source order (the first raising field aborts the record). -/
def omdbBuild (fs : List (String × Json)) : Except String OmdbRecord := do
  let ratings := (lookupField fs "Ratings").getD (Json.arr [])
  let rm ←
    match ratings with
    | .arr entries => entries.foldlM ratingStep ((none : Option String), (none : Option String))
    | _ => .error "TypeError: Ratings is not a list"
  let ir ← imdbRatingField fs
  let iv ← imdbVotesField fs
  let bo ← boxOfficeField fs
  let rt ← intIfTruthy rm.1
  let mc ← intIfTruthy rm.2
  .ok { imdb_rating := ir
        imdb_votes := iv
        mpaa_rating := lookupField fs "Rated"
        domestic_box_office := bo
        rotten_tomatoes_score := rt
        metacritic_score := mc
        awards_text := lookupField fs "Awards" }

/-- `get_omdb_record` (lines 83-126).  `rsp` is the `(status, body)` the
HTTP GET would return; the second component of the result records whether
that GET was actually issued.  Guard order follows the source: falsy
`imdb_id` skips the call; a non-200 status or a payload whose `"Response"`
is not the string `"True"` degrade to the empty record. -/
def get_omdb_record (rsp : Nat × Json) (imdb_id : Option Json) :
    Except String OmdbRecord × Bool :=
  if !(pyTruthy imdb_id) then (.ok emptyOmdb, false)
  else
    if rsp.1 ≠ 200 then (.ok emptyOmdb, true)
    else
      match rsp.2 with
      | .obj fs =>
        if !(optEqStr (lookupField fs "Response") "True") then (.ok emptyOmdb, true)
        else (omdbBuild fs, true)
      | _ => (.error "AttributeError: payload has no attribute get", true)

/-- The extraction the code applies to the the Rotten Tomatoes rating value:
the ratings loop of lines 103-105 followed by `int(rt_score) if rt_score
else None` of lines 119-121. -/
def rtScoreOfRatings (entries : List Json) : Except String (Option Int) := do
  let rm ← entries.foldlM ratingStep ((none : Option String), (none : Option String))
  intIfTruthy rm.1

/-- A Rotten Tomatoes ratings entry with the given value text. -/
def rtEntry (v : String) : Json :=
  Json.obj [("Source", Json.str "Rotten Tomatoes"), ("Value", Json.str v)]

/-- A cast entry, with the two fields the code reads (lines 53-57):
`x.get("order", 99)` and `c.get("popularity", 0)`. -/
structure CastEntry where
  order : Option ℚ
  popularity : Option ℚ
deriving DecidableEq

/-- A crew entry, with the two fields the code reads (lines 60-63). -/
structure CrewEntry where
  job : Option Json
  popularity : Option Json

/-- The sort key of line 55: `x.get("order", 99)`. -/
def castKey (c : CastEntry) : ℚ :=
  c.order.getD 99

/-- `sorted(cast, key=lambda x: x.get("order", 99))` (lines 53-56):
Python's sort is stable, and so is insertion sort. -/
def sortCast (cast : List CastEntry) : List CastEntry :=
  cast.insertionSort (fun a b => castKey a ≤ castKey b)

/-- The top-billed three: `sorted(...)[:3]` (line 56). -/
def top3 (cast : List CastEntry) : List CastEntry :=
  (sortCast cast).take 3

/-- `cast_pops = [c.get("popularity", 0) for c in cast]` (line 57). -/
def castPops (cast : List CastEntry) : List ℚ :=
  (top3 cast).map (fun c => c.popularity.getD 0)

/-- `sum(cast_pops) / len(cast_pops) if cast_pops else None` (lines 75-77). -/
def meanOfPops (l : List ℚ) : Option ℚ :=
  if l = [] then none else some (l.sum / (l.length : ℚ))

/-- `max(cast_pops) if cast_pops else None` (line 78). -/
def maxOfPops : List ℚ → Option ℚ
  | [] => none
  | x :: xs => some (xs.foldl max x)

/-- The director scan of lines 59-63: the popularity of the first crew
entry whose job is exactly `"Director"`, `None` if there is none. -/
def directorPopularity (crew : List CrewEntry) : Option Json :=
  match crew.find? (fun c => optEqStr c.job "Director") with
  | some c => c.popularity
  | none => none

/-- `[g["name"] for g in details.get("genres", [])]` (line 72):
a non-list value or an entry without a `"name"` key raises. -/
def genreNames : Json → Except String (List Json)
  | .arr gs =>
    gs.mapM (fun g =>
      match g with
      | .obj gfs =>
        match lookupField gfs "name" with
        | some v => .ok v
        | none => .error "KeyError: name"
      | _ => .error "TypeError: genre entry is not an object")
  | _ => .error "TypeError: genres is not a list"

/-- The primary (Catalog-A) record, lines 65-81. -/
structure TmdbRecord where
  movie_id : Json
  title : Option Json
  release_date : Option Json
  budget : Option Json
  revenue_worldwide : Option Json
  runtime : Option Json
  genres : List Json
  imdb_id : Option Json
  franchise : Bool
  cast_popularity_mean : Option ℚ
  cast_popularity_max : Option ℚ
  director_popularity : Option Json
  original_language : Option Json

/-- `get_tmdb_record` (lines 49-81).  The two HTTP responses are inputs:
`details` is the raw detail payload, `cast`/`crew` the entries of the
credits payload.  The only raising step of the record construction is the
genre comprehension (and a non-object detail payload, on which `.get`
itself raises); every other field is a total transformation. -/
def get_tmdb_record (movie_id : Json) (details : Json)
    (cast : List CastEntry) (crew : List CrewEntry) : Except String TmdbRecord :=
  match details with
  | .obj fs =>
    (genreNames ((lookupField fs "genres").getD (Json.arr []))).map (fun gs =>
      { movie_id := movie_id
        title := lookupField fs "title"
        release_date := lookupField fs "release_date"
        budget := lookupField fs "budget"
        revenue_worldwide := lookupField fs "revenue"
        runtime := lookupField fs "runtime"
        genres := gs
        imdb_id := lookupField fs "imdb_id"
        franchise :=
          match lookupField fs "belongs_to_collection" with
          | some v => !v.isNull
          | none => false
        cast_popularity_mean := meanOfPops (castPops cast)
        cast_popularity_max := maxOfPops (castPops cast)
        director_popularity := directorPopularity crew
        original_language := lookupField fs "original_language" })
  | _ => .error "AttributeError: details payload has no attribute get"

/-- The flat merged record `\x7b**tmdb_data, **omdb_data\x7d` (line 140);
the two sources use disjoint key sets, so the merge is a plain union. -/
structure MergedRecord where
  movie_id : Json
  title : Option Json
  release_date : Option Json
  budget : Option Json
  revenue_worldwide : Option Json
  runtime : Option Json
  genres : List Json
  imdb_id : Option Json
  franchise : Bool
  cast_popularity_mean : Option ℚ
  cast_popularity_max : Option ℚ
  director_popularity : Option Json
  original_language : Option Json
  imdb_rating : Option ℚ
  imdb_votes : Option Int
  mpaa_rating : Option Json
  domestic_box_office : Option Int
  rotten_tomatoes_score : Option Int
  metacritic_score : Option Int
  awards_text : Option Json

/-- Merge the primary and enrichment records (line 140). -/
def mergeRecords (t : TmdbRecord) (o : OmdbRecord) : MergedRecord :=
  { movie_id := t.movie_id
    title := t.title
    release_date := t.release_date
    budget := t.budget
    revenue_worldwide := t.revenue_worldwide
    runtime := t.runtime
    genres := t.genres
    imdb_id := t.imdb_id
    franchise := t.franchise
    cast_popularity_mean := t.cast_popularity_mean
    cast_popularity_max := t.cast_popularity_max
    director_popularity := t.director_popularity
    original_language := t.original_language
    imdb_rating := o.imdb_rating
    imdb_votes := o.imdb_votes
    mpaa_rating := o.mpaa_rating
    domestic_box_office := o.domestic_box_office
    rotten_tomatoes_score := o.rotten_tomatoes_score
    metacritic_score := o.metacritic_score
    awards_text := o.awards_text }

/-- One candidate's enrichment, lines 137-140: fetch the primary record,
feed its `imdb_id` to `get_omdb_record`, merge.  The boolean reports
whether the Catalog-B HTTP request was issued. -/
def enrich (omdbRsp : Nat × Json) (movie_id details : Json)
    (cast : List CastEntry) (crew : List CrewEntry) :
    Except String MergedRecord × Bool :=
  match get_tmdb_record movie_id details cast crew with
  | .error e => (.error e, false)
  | .ok t =>
    match get_omdb_record omdbRsp t.imdb_id with
    | (.error e, invoked) => (.error e, invoked)
    | (.ok o, invoked) => (.ok (mergeRecords t o), invoked)

/-- Convert a result's `m["id"]` to a set element; Python raises
`KeyError` on a missing key and `TypeError` when adding an unhashable
(list or dict) value to a set. -/
def resultId (m : Json) : Except String JScalar :=
  match m with
  | .obj mfs =>
    match lookupField mfs "id" with
    | none => .error "KeyError: id"
    | some .null => .ok .null
    | some (.bool b) => .ok (.bool b)
    | some (.num q) => .ok (.num q)
    | some (.str s) => .ok (.str s)
    | some _ => .error "TypeError: unhashable type"
  | _ => .error "TypeError: result entry is not an object"

/-- The identifiers in one discover page: `data.get("results", [])`
followed by `m["id"]` for each entry (lines 42-43). -/
def pageIds (body : Json) : Except String (List JScalar) :=
  match body with
  | .obj fs =>
    match (lookupField fs "results").getD (Json.arr []) with
    | .arr ms => ms.mapM resultId
    | _ => .error "TypeError: results is not a list"
  | _ => .error "AttributeError: payload has no attribute get"

/-- The identifiers one page contributes in a successful run
(statement-side view of `pageIds`). -/
def pageIdsD (fetch : Int → Int → Json) (y p : Int) : List JScalar :=
  ((pageIds (fetch y p)).toOption).getD []

/-- `movie_ids.add(m["id"])`: a set, modelled as a duplicate-free list in
insertion order. -/
def setAdd (s : List JScalar) (x : JScalar) : List JScalar :=
  if x ∈ s then s else s ++ [x]

/-- Python `range(a, b)` over integers. -/
def pyRange (a b : Int) : List Int :=
  (List.range (b - a).toNat).map (fun i => a + (i : Int))

/-- The inner page loop of lines 30-45: fold the pages of one year into the
running set, propagating a failed fetch. -/
def pageFold (fetch : Int → Int → Json) (y : Int) (pages : List Int)
    (acc : List JScalar) : Except String (List JScalar) :=
  pages.foldlM (fun a p => do
    let xs ← pageIds (fetch y p)
    pure (xs.foldl setAdd a)) acc

/-- The outer year loop of lines 29-45. -/
def yearFold (fetch : Int → Int → Json) (years pages : List Int)
    (acc : List JScalar) : Except String (List JScalar) :=
  years.foldlM (fun a y => pageFold fetch y pages a) acc

/-- `discover_movies` (lines 26-47): iterate
`range(start_year, end_year + 1) × range(1, pages_per_year + 1)`,
collecting every result identifier into a running set; the returned
`list(movie_ids)` is the deduplicated list. -/
def discover_movies (fetch : Int → Int → Json)
    (start_year end_year pages_per_year : Int) : Except String (List JScalar) :=
  yearFold fetch (pyRange start_year (end_year + 1)) (pyRange 1 (pages_per_year + 1)) []

/-- Statement-side success test for `Except`. -/
def isOkB {ε α : Type} : Except ε α → Bool
  | .ok _ => true
  | .error _ => false

/-- The orchestrator loop of lines 134-149 over an abstract per-candidate
enrichment: a successful candidate appends its merged record to the sink,
a failing candidate is reported and skipped; the loop always reaches the
end of the list. -/
def scrape_loop (enrichFn : JScalar → Except String MergedRecord) :
    List JScalar → List MergedRecord × List JScalar
  | [] => ([], [])
  | id :: rest =>
    match enrichFn id with
    | .ok r =>
      let done := scrape_loop enrichFn rest
      (r :: done.1, done.2)
    | .error _ =>
      let done := scrape_loop enrichFn rest
      (done.1, id :: done.2)

/-- `scrape` (lines 128-150): discovery, then the per-candidate loop;
returns the written records and the reported failures. -/
def scrape (fetch : Int → Int → Json)
    (enrichFn : JScalar → Except String MergedRecord)
    (start_year end_year pages_per_year : Int) :
    Except String (List MergedRecord × List JScalar) := do
  let ids ← discover_movies fetch start_year end_year pages_per_year
  pure (scrape_loop enrichFn ids)

/-! ## Helper lemmas -/

/-- A succeeding `Except` equals `.ok` of its extracted value. -/
theorem except_eq_ok_get {ε α : Type} (e : Except ε α) (h : e.toOption.isSome = true) :
    e = .ok (e.toOption.get h) := by
  cases e with
  | ok a => rfl
  | error e => simp [Except.toOption] at h

/-- The franchise flag of line 74, characterised. -/
theorem franchise_flag_iff (fs : List (String × Json)) :
    ((match lookupField fs "belongs_to_collection" with
      | some v => !v.isNull
      | none => false) = true) ↔
      ∃ v, lookupField fs "belongs_to_collection" = some v ∧ v ≠ Json.null := by
  cases hl : lookupField fs "belongs_to_collection" with
  | none => simp
  | some v => cases v <;> simp [Json.isNull]

/-- Field values of a successfully built primary record. -/
theorem get_tmdb_record_ok_fields (movie_id details : Json) (cast : List CastEntry)
    (crew : List CrewEntry) (t : TmdbRecord)
    (h : get_tmdb_record movie_id details cast crew = .ok t) :
    t.cast_popularity_mean = meanOfPops (castPops cast) ∧
    t.cast_popularity_max = maxOfPops (castPops cast) ∧
    t.imdb_id = details.getField "imdb_id" ∧
    (t.franchise = true ↔
      ∃ v, details.getField "belongs_to_collection" = some v ∧ v ≠ Json.null) := by
  cases details with
  | obj fs =>
    rw [get_tmdb_record] at h
    cases hg : genreNames ((lookupField fs "genres").getD (Json.arr [])) with
    | error e => rw [hg] at h; simp [Except.map] at h
    | ok gs =>
      rw [hg] at h
      simp only [Except.map, Except.ok.injEq] at h
      subst h
      refine ⟨rfl, rfl, rfl, ?_⟩
      exact franchise_flag_iff fs
  | null => simp [get_tmdb_record] at h
  | bool b => simp [get_tmdb_record] at h
  | num q => simp [get_tmdb_record] at h
  | str s => simp [get_tmdb_record] at h
  | arr xs => simp [get_tmdb_record] at h

/-- A falsy cross-reference identifier short-circuits `get_omdb_record`. -/
theorem get_omdb_record_falsy (rsp : Nat × Json) (imdb_id : Option Json)
    (h : pyTruthy imdb_id = false) :
    get_omdb_record rsp imdb_id = (.ok emptyOmdb, false) := by
  simp [get_omdb_record, h]

/-! ## Claims -/

/-- C1: if Catalog-A's detail record has a null or absent `imdb_id`, the
Catalog-B client is never invoked (the HTTP-request flag of `enrich` is
`false`) and any merged record produced for the candidate has all seven
enrichment fields null. -/
theorem claim_C1_null_crossref_skips_catalogB (rsp : Nat × Json)
    (movie_id details : Json) (cast : List CastEntry) (crew : List CrewEntry)
    (h : details.getField "imdb_id" = none ∨ details.getField "imdb_id" = some Json.null) :
    (enrich rsp movie_id details cast crew).2 = false ∧
    ∀ m, (enrich rsp movie_id details cast crew).1 = .ok m →
      m.imdb_rating = none ∧ m.imdb_votes = none ∧ m.mpaa_rating = none ∧
      m.domestic_box_office = none ∧ m.rotten_tomatoes_score = none ∧
      m.metacritic_score = none ∧ m.awards_text = none := by
  cases he : get_tmdb_record movie_id details cast crew with
  | error e =>
    refine ⟨by simp [enrich, he], fun m hm => ?_⟩
    simp [enrich, he] at hm
  | ok t =>
    have hid : t.imdb_id = details.getField "imdb_id" :=
      (get_tmdb_record_ok_fields _ _ _ _ _ he).2.2.1
    have hfalsy : pyTruthy t.imdb_id = false := by
      rcases h with h | h <;> rw [hid, h] <;> rfl
    have hskip := get_omdb_record_falsy rsp t.imdb_id hfalsy
    refine ⟨by simp [enrich, he, hskip], fun m hm => ?_⟩
    simp [enrich, he, hskip] at hm
    subst hm
    exact ⟨rfl, rfl, rfl, rfl, rfl, rfl, rfl⟩

/-- C1 witness: a detail payload without an `imdb_id` key. -/
theorem claim_C1_witness :
    ((Json.obj []).getField "imdb_id" = none ∨
      (Json.obj []).getField "imdb_id" = some Json.null) ∧
    ((enrich (200, Json.obj []) (Json.num 1) (Json.obj []) [] []).2 = false ∧
      ∀ m, (enrich (200, Json.obj []) (Json.num 1) (Json.obj []) [] []).1 = .ok m →
        m.imdb_rating = none ∧ m.imdb_votes = none ∧ m.mpaa_rating = none ∧
        m.domestic_box_office = none ∧ m.rotten_tomatoes_score = none ∧
        m.metacritic_score = none ∧ m.awards_text = none) :=
  ⟨Or.inl rfl,
    claim_C1_null_crossref_skips_catalogB (200, Json.obj []) (Json.num 1)
      (Json.obj []) [] [] (Or.inl rfl)⟩

/-- C2: a non-200 status, or an object payload whose `"Response"` field is
not the literal string `"True"`, makes `get_omdb_record` return the empty
enrichment record without error.  (The payload is quantified as a JSON
object, the shape the Catalog-B interface returns.) -/
theorem claim_C2_soft_failure (imdb_id : Option Json) (status : Nat)
    (fs : List (String × Json))
    (h : status ≠ 200 ∨ optEqStr (lookupField fs "Response") "True" = false) :
    (get_omdb_record (status, Json.obj fs) imdb_id).1 = .ok emptyOmdb := by
  by_cases ht : pyTruthy imdb_id
  · rcases h with h | h
    · simp [get_omdb_record, ht, h]
    · by_cases hs : status = 200
      · subst hs; simp [get_omdb_record, ht, h]
      · simp [get_omdb_record, ht, hs]
  · simp [get_omdb_record, ht]

/-- C2 witness: a 404 response. -/
theorem claim_C2_witness :
    ((404 : Nat) ≠ 200 ∨ optEqStr (lookupField [] "Response") "True" = false) ∧
    (get_omdb_record (404, Json.obj []) (some (Json.str "tt0000001"))).1 = .ok emptyOmdb :=
  ⟨Or.inl (by decide),
    claim_C2_soft_failure (some (Json.str "tt0000001")) 404 [] (Or.inl (by decide))⟩

/-- C4 counterexample: a Rotten Tomatoes rating whose value is the sentinel
`"N/A"` reaches `int("N/A")`, so `get_omdb_record` raises (propagates an
error) instead of returning a null score as the claim states. -/
theorem claim_C4_counterexample :
    (get_omdb_record (200, Json.obj [("Response", Json.str "True"),
        ("Ratings", Json.arr [rtEntry "N/A"])]) (some (Json.str "tt0000001"))).1 =
      .error "ValueError: invalid literal for int() with base 10" := rfl

/-- C4 (amended): the percentage normaliser strips `"%"` and parses the
rest, with `"87%"` mapped to `87`; it yields null without raising when the
rating entry is absent (or the stripped text is empty), but on any other
non-numeric value text — including the sentinel `"N/A"` — it raises a
`ValueError`, which surfaces as a per-candidate failure. -/
theorem claim_C4_percent_amended :
    rtScoreOfRatings [rtEntry "87%"] = .ok (some 87) ∧
    rtScoreOfRatings [] = .ok none ∧
    (∀ v : String, stripChar '%' v ≠ "" → pyInt (stripChar '%' v) = none →
      rtScoreOfRatings [rtEntry v] =
        .error "ValueError: invalid literal for int() with base 10") := by
  refine ⟨rfl, rfl, fun v h1 h2 => ?_⟩
  simp [rtScoreOfRatings, rtEntry, ratingStep, lookupField, optEqStr,
    List.foldlM, intIfTruthy, h1, h2, Bind.bind, Except.bind, pure, Except.pure]

/-- C4 witness for the amended claim, at the sentinel value. -/
theorem claim_C4_witness :
    stripChar '%' "N/A" ≠ "" ∧ pyInt (stripChar '%' "N/A") = none ∧
    rtScoreOfRatings [rtEntry "N/A"] =
      .error "ValueError: invalid literal for int() with base 10" :=
  ⟨by decide, by decide, claim_C4_percent_amended.2.2 "N/A" (by decide) (by decide)⟩

/-- C8: the franchise flag of a built primary record is `true` exactly when
the detail payload has a present, non-null `belongs_to_collection` field,
and being a `Bool` it is always a boolean, never null. -/
theorem claim_C8_franchise_flag (movie_id details : Json) (cast : List CastEntry)
    (crew : List CrewEntry) (t : TmdbRecord)
    (h : get_tmdb_record movie_id details cast crew = .ok t) :
    (t.franchise = true ↔
      ∃ v, details.getField "belongs_to_collection" = some v ∧ v ≠ Json.null) ∧
    (t.franchise = true ∨ t.franchise = false) :=
  ⟨(get_tmdb_record_ok_fields _ _ _ _ _ h).2.2.2, Bool.eq_false_or_eq_true t.franchise⟩

/-- C8 witness: a detail payload whose collection field is a non-null
object. -/
theorem claim_C8_witness :
    get_tmdb_record (Json.num 1) (Json.obj [("belongs_to_collection", Json.obj [])]) [] [] =
      .ok ((get_tmdb_record (Json.num 1)
        (Json.obj [("belongs_to_collection", Json.obj [])]) [] []).toOption.get (by rfl)) ∧
    (((get_tmdb_record (Json.num 1)
        (Json.obj [("belongs_to_collection", Json.obj [])]) [] []).toOption.get (by rfl)).franchise = true ↔
      ∃ v, (Json.obj [("belongs_to_collection", Json.obj [])]).getField "belongs_to_collection" =
        some v ∧ v ≠ Json.null) :=
  ⟨except_eq_ok_get _ (by rfl),
    (claim_C8_franchise_flag _ _ _ _ _ (except_eq_ok_get _ (by rfl))).1⟩

/-- C9: the currency normaliser strips `"$"` and `","` and parses an
integer; `"$58,000,000"` gives `58000000`, and an absent or `"N/A"` box
office gives null, also through the full `get_omdb_record`. -/
theorem claim_C9_currency :
    boxOfficeField [("BoxOffice", Json.str "$58,000,000")] = .ok (some 58000000) ∧
    boxOfficeField [("BoxOffice", Json.str "N/A")] = .ok none ∧
    boxOfficeField [] = .ok none ∧
    (get_omdb_record (200, Json.obj [("Response", Json.str "True"),
        ("BoxOffice", Json.str "$58,000,000")]) (some (Json.str "tt0000001"))).1 =
      .ok { emptyOmdb with domestic_box_office := some 58000000 } :=
  ⟨rfl, rfl, rfl, rfl⟩

/-- The popularity list is empty exactly when the cast list is. -/
theorem castPops_eq_nil_iff (cast : List CastEntry) : castPops cast = [] ↔ cast = [] := by
  have hlen : (sortCast cast).length = cast.length :=
    (List.perm_insertionSort _ cast).length_eq
  constructor
  · intro h
    cases hc : sortCast cast with
    | nil =>
      rw [hc] at hlen
      exact List.length_eq_zero.1 hlen.symm
    | cons a l =>
      rw [castPops, top3, hc] at h
      simp at h
  · intro h
    subst h
    rfl

/-- Python's `max` over a list with seed: the fold lands in the list. -/
theorem foldl_max_mem (x : ℚ) (xs : List ℚ) : xs.foldl max x ∈ x :: xs := by
  induction xs generalizing x with
  | nil => simp
  | cons c cs ih =>
    have hstep : (c :: cs).foldl max x = cs.foldl max (max x c) := rfl
    rw [hstep]
    rcases List.mem_cons.1 (ih (max x c)) with h1 | h1
    · rcases max_choice x c with hm | hm <;> rw [h1, hm] <;> simp
    · simp [h1]

/-- Python's `max` over a list with seed: it bounds every element. -/
theorem le_foldl_max (x : ℚ) (xs : List ℚ) : ∀ y ∈ x :: xs, y ≤ xs.foldl max x := by
  induction xs generalizing x with
  | nil =>
    intro y hy
    simp at hy
    simp [hy]
  | cons c cs ih =>
    intro y hy
    have hstep : (c :: cs).foldl max x = cs.foldl max (max x c) := rfl
    rw [hstep]
    rcases List.mem_cons.1 hy with h1 | h1
    · rw [h1]
      exact le_trans (le_max_left x c) (ih (max x c) _ (List.mem_cons_self _ _))
    · rcases List.mem_cons.1 h1 with h2 | h2
      · rw [h2]
        exact le_trans (le_max_right x c) (ih (max x c) _ (List.mem_cons_self _ _))
      · exact ih (max x c) y (List.mem_cons_of_mem _ h2)

/-- C6: the mean/max aggregation yields `(null, null)` exactly on an empty
popularity list; on a non-empty list the mean `m` satisfies
`m * length = sum` (it is the exact arithmetic mean over the rationals;
float rounding is outside the model) and the max is the true maximum;
consequently the record's aggregates are null iff the cast list is empty. -/
theorem claim_C6_mean_max :
    (∀ pops : List ℚ,
      (meanOfPops pops = none ↔ pops = []) ∧
      (maxOfPops pops = none ↔ pops = []) ∧
      (∀ m, meanOfPops pops = some m → m * (pops.length : ℚ) = pops.sum) ∧
      (∀ M, maxOfPops pops = some M → M ∈ pops ∧ ∀ x ∈ pops, x ≤ M)) ∧
    (∀ (movie_id details : Json) (cast : List CastEntry) (crew : List CrewEntry)
      (t : TmdbRecord), get_tmdb_record movie_id details cast crew = .ok t →
      ((t.cast_popularity_mean = none ∧ t.cast_popularity_max = none) ↔ cast = [])) := by
  have hmain : ∀ pops : List ℚ,
      (meanOfPops pops = none ↔ pops = []) ∧
      (maxOfPops pops = none ↔ pops = []) ∧
      (∀ m, meanOfPops pops = some m → m * (pops.length : ℚ) = pops.sum) ∧
      (∀ M, maxOfPops pops = some M → M ∈ pops ∧ ∀ x ∈ pops, x ≤ M) := by
    intro pops
    refine ⟨?_, ?_, ?_, ?_⟩
    · by_cases h : pops = [] <;> simp [meanOfPops, h]
    · cases pops <;> simp [maxOfPops]
    · intro m hm
      by_cases h : pops = []
      · simp [meanOfPops, h] at hm
      · simp [meanOfPops, h] at hm
        have hlen : ((pops.length : ℚ)) ≠ 0 := by
          have : pops.length ≠ 0 := fun h0 => h (List.length_eq_zero.1 h0)
          exact_mod_cast this
        rw [← hm, div_mul_cancel₀ _ hlen]
    · intro M hM
      cases pops with
      | nil => simp [maxOfPops] at hM
      | cons x xs =>
        simp [maxOfPops] at hM
        subst hM
        exact ⟨foldl_max_mem x xs, le_foldl_max x xs⟩
  refine ⟨hmain, fun movie_id details cast crew t ht => ?_⟩
  obtain ⟨hmean, hmax, -, -⟩ := get_tmdb_record_ok_fields _ _ _ _ _ ht
  rw [hmean, hmax]
  constructor
  · intro ⟨h1, _⟩
    exact (castPops_eq_nil_iff cast).1 (((hmain (castPops cast)).1).1 h1)
  · intro h
    have : castPops cast = [] := (castPops_eq_nil_iff cast).2 h
    simp [this, meanOfPops, maxOfPops]

/-- C6 witness at the popularity list `[10, 20, 5]` and an empty cast. -/
theorem claim_C6_witness :
    meanOfPops [10, 20, 5] =
      some (([10, 20, 5] : List ℚ).sum / (([10, 20, 5] : List ℚ).length : ℚ)) ∧
    (([10, 20, 5] : List ℚ).sum / (([10, 20, 5] : List ℚ).length : ℚ)) *
      (([10, 20, 5] : List ℚ).length : ℚ) = ([10, 20, 5] : List ℚ).sum ∧
    maxOfPops [10, 20, 5] = some (([20, 5] : List ℚ).foldl max 10) ∧
    (([20, 5] : List ℚ).foldl max 10 ∈ ([10, 20, 5] : List ℚ) ∧
      ∀ x ∈ ([10, 20, 5] : List ℚ), x ≤ ([20, 5] : List ℚ).foldl max 10) ∧
    get_tmdb_record (Json.num 1) (Json.obj []) [] [] =
      .ok ((get_tmdb_record (Json.num 1) (Json.obj []) [] []).toOption.get (by rfl)) ∧
    ((((get_tmdb_record (Json.num 1) (Json.obj []) [] []).toOption.get
        (by rfl)).cast_popularity_mean = none ∧
      ((get_tmdb_record (Json.num 1) (Json.obj []) [] []).toOption.get
        (by rfl)).cast_popularity_max = none) ↔ ([] : List CastEntry) = []) :=
  ⟨rfl,
    (claim_C6_mean_max.1 [10, 20, 5]).2.2.1 _ rfl,
    rfl,
    (claim_C6_mean_max.1 [10, 20, 5]).2.2.2 _ rfl,
    except_eq_ok_get _ (by rfl),
    claim_C6_mean_max.2 _ _ _ _ _ (except_eq_ok_get _ (by rfl))⟩

/-- C5 counterexample: in `sorted(cast, key=lambda x: x.get("order", 99))`
an entry missing the billing-order field (fallback key 99) sorts before an
entry whose explicit order is 100, so missing entries do not sort after
all entries that have the field. -/
theorem claim_C5_counterexample :
    ¬ (∀ i j : Fin (sortCast [⟨some 100, none⟩, ⟨none, none⟩]).length,
        ((sortCast [⟨some 100, none⟩, ⟨none, none⟩]).get i).order = none →
        ((sortCast [⟨some 100, none⟩, ⟨none, none⟩]).get j).order ≠ none →
        (j : Nat) < (i : Nat)) := by decide

/-- C5 (amended): the cast list is sorted ascending (stably) by the billing
order with 99 substituted for missing entries; a missing entry therefore
sorts after every entry whose order value is below 99 (but not necessarily
after entries with order ≥ 99); the record's popularity aggregates are
computed over the first 3 entries of that sorted order. -/
theorem claim_C5_cast_sort_amended (cast : List CastEntry) :
    (sortCast cast).Sorted (fun a b => castKey a ≤ castKey b) ∧
    List.Perm (sortCast cast) cast ∧
    (∀ c : CastEntry, c.order = none → castKey c = 99) ∧
    (∀ i j : Fin (sortCast cast).length,
      ((sortCast cast).get i).order = none →
      castKey ((sortCast cast).get j) < 99 →
      (j : Nat) < (i : Nat)) ∧
    (∀ (movie_id details : Json) (crew : List CrewEntry) (t : TmdbRecord),
      get_tmdb_record movie_id details cast crew = .ok t →
      t.cast_popularity_mean =
        meanOfPops (((sortCast cast).take 3).map (fun c => c.popularity.getD 0)) ∧
      t.cast_popularity_max =
        maxOfPops (((sortCast cast).take 3).map (fun c => c.popularity.getD 0))) := by
  haveI htot : IsTotal CastEntry (fun a b => castKey a ≤ castKey b) :=
    ⟨fun a b => le_total _ _⟩
  haveI htrans : IsTrans CastEntry (fun a b => castKey a ≤ castKey b) :=
    ⟨fun _ _ _ hab hbc => le_trans hab hbc⟩
  have hsorted : (sortCast cast).Sorted (fun a b => castKey a ≤ castKey b) :=
    List.sorted_insertionSort _ cast
  refine ⟨hsorted, List.perm_insertionSort _ cast, fun c hc => by simp [castKey, hc],
    ?_, ?_⟩
  · intro i j hi hj
    by_contra hnot
    have hij : (i : Nat) ≤ (j : Nat) := Nat.le_of_not_lt hnot
    have hki : castKey ((sortCast cast).get i) = 99 := by
      unfold castKey
      rw [hi]
      rfl
    rcases Nat.lt_or_ge (i : Nat) (j : Nat) with hlt | hge
    · have := hsorted.rel_get_of_lt (a := i) (b := j) (by exact Fin.lt_def.2 hlt)
      rw [hki] at this
      exact absurd hj (not_lt.2 this)
    · have hije : (i : Nat) = (j : Nat) := Nat.le_antisymm hij hge
      have : i = j := Fin.ext hije
      subst this
      rw [hki] at hj
      exact absurd hj (by norm_num)
  · intro movie_id details crew t ht
    obtain ⟨hmean, hmax, -, -⟩ := get_tmdb_record_ok_fields _ _ _ _ _ ht
    exact ⟨hmean, hmax⟩

/-- C5 witness: a missing-order entry together with an order-1 entry, and
the record built from them. -/
theorem claim_C5_witness :
    ((sortCast [⟨none, none⟩, ⟨some 1, none⟩]).get
        ⟨1, by decide⟩).order = none ∧
    castKey ((sortCast [⟨none, none⟩, ⟨some 1, none⟩]).get ⟨0, by decide⟩) < 99 ∧
    ((0 : Nat) < 1) ∧
    get_tmdb_record (Json.num 1) (Json.obj []) [⟨none, none⟩, ⟨some 1, none⟩] [] =
      .ok ((get_tmdb_record (Json.num 1) (Json.obj [])
        [⟨none, none⟩, ⟨some 1, none⟩] []).toOption.get (by rfl)) ∧
    ((get_tmdb_record (Json.num 1) (Json.obj [])
        [⟨none, none⟩, ⟨some 1, none⟩] []).toOption.get (by rfl)).cast_popularity_mean =
      meanOfPops (((sortCast [⟨none, none⟩, ⟨some 1, none⟩]).take 3).map
        (fun c => c.popularity.getD 0)) :=
  ⟨by decide, by decide,
    (claim_C5_cast_sort_amended [⟨none, none⟩, ⟨some 1, none⟩]).2.2.2.1
      ⟨1, by decide⟩ ⟨0, by decide⟩ (by decide) (by decide),
    except_eq_ok_get _ (by rfl),
    ((claim_C5_cast_sort_amended [⟨none, none⟩, ⟨some 1, none⟩]).2.2.2.2 _ _ _ _
      (except_eq_ok_get _ (by rfl))).1⟩

/-- C10 counterexample: with two cast entries both missing popularity, the
mean including the second missing entry equals the mean without it (both
are 0), so a missing-popularity entry does not always lower the mean. -/
theorem claim_C10_counterexample :
    meanOfPops (castPops [⟨none, none⟩, ⟨none, none⟩]) = some 0 ∧
    meanOfPops (castPops [⟨none, none⟩]) = some 0 := by
  constructor <;>
    simp [castPops, top3, sortCast, List.insertionSort, List.orderedInsert,
      meanOfPops, castKey]

/-- C10 (amended): the value 0 is substituted for a missing popularity
field before aggregation; a non-empty cast whose top-billed entries all
lack popularity yields mean 0 and max 0 (not null); and when the remaining
popularity values are nonnegative, an entry missing popularity never
increases the computed mean, lowering it strictly whenever the others'
mean is positive. -/
theorem claim_C10_zero_substitution_amended :
    (∀ cast : List CastEntry,
      castPops cast = (top3 cast).map (fun c => c.popularity.getD 0)) ∧
    (∀ cast : List CastEntry, cast ≠ [] → (∀ c ∈ top3 cast, c.popularity = none) →
      meanOfPops (castPops cast) = some 0 ∧ maxOfPops (castPops cast) = some 0) ∧
    (∀ (movie_id details : Json) (cast : List CastEntry) (crew : List CrewEntry)
      (t : TmdbRecord), get_tmdb_record movie_id details cast crew = .ok t →
      cast ≠ [] → (∀ c ∈ top3 cast, c.popularity = none) →
      t.cast_popularity_mean = some 0 ∧ t.cast_popularity_max = some 0) ∧
    (∀ (rest : List ℚ) (m m' : ℚ), (∀ x ∈ rest, 0 ≤ x) →
      meanOfPops (0 :: rest) = some m → meanOfPops rest = some m' →
      m ≤ m' ∧ (0 < m' → m < m')) := by
  have hzero : ∀ cast : List CastEntry, cast ≠ [] →
      (∀ c ∈ top3 cast, c.popularity = none) →
      meanOfPops (castPops cast) = some 0 ∧ maxOfPops (castPops cast) = some 0 := by
    intro cast hne hmiss
    have hall : ∀ x ∈ castPops cast, x = 0 := by
      intro x hx
      rw [castPops] at hx
      obtain ⟨c, hc, hcx⟩ := List.mem_map.1 hx
      rw [hmiss c hc] at hcx
      exact hcx.symm
    have hpne : castPops cast ≠ [] := fun h => hne ((castPops_eq_nil_iff cast).1 h)
    constructor
    · have hsum : (castPops cast).sum = 0 :=
        List.sum_eq_zero hall
      simp [meanOfPops, hpne, hsum]
    · cases hp : castPops cast with
      | nil => exact absurd hp hpne
      | cons x xs =>
        have hmem := foldl_max_mem x xs
        have : xs.foldl max x = 0 := by
          have := hall _ (hp ▸ hmem)
          exact this
        simp [maxOfPops, this]
  refine ⟨fun _ => rfl, hzero, ?_, ?_⟩
  · intro movie_id details cast crew t ht hne hmiss
    obtain ⟨hmean, hmax, -, -⟩ := get_tmdb_record_ok_fields _ _ _ _ _ ht
    rw [hmean, hmax]
    exact hzero cast hne hmiss
  · intro rest m m' hnn hm hm'
    have hrne : rest ≠ [] := by
      intro h
      rw [h] at hm'
      simp [meanOfPops] at hm'
    have hne0 : (0 : ℚ) :: rest ≠ [] := by simp
    simp [meanOfPops, hne0] at hm
    simp [meanOfPops, hrne] at hm'
    have hlpos : 0 < (rest.length : ℚ) := by
      have : 0 < rest.length := List.length_pos.2 hrne
      exact_mod_cast this
    have hsum : 0 ≤ rest.sum := List.sum_nonneg hnn
    have hm2 : m = rest.sum / ((rest.length : ℚ) + 1) := by
      rw [← hm]
    have hm'2 : m' = rest.sum / (rest.length : ℚ) := hm'.symm
    constructor
    · rw [hm2, hm'2]
      gcongr
      linarith
    · intro hpos
      have hsumpos : 0 < rest.sum := by
        by_contra hc
        have : rest.sum = 0 := le_antisymm (not_lt.1 hc) hsum
        rw [hm'2, this] at hpos
        simp at hpos
      rw [hm2, hm'2]
      exact div_lt_div_of_pos_left hsumpos hlpos (by linarith)

/-- C10 witness: a single missing-popularity entry for the zero case, and
the remaining-popularities list `[1]` for the mean comparison. -/
theorem claim_C10_witness :
    (([⟨none, none⟩] : List CastEntry) ≠ []) ∧
    (∀ c ∈ top3 [(⟨none, none⟩ : CastEntry)], c.popularity = none) ∧
    (meanOfPops (castPops [⟨none, none⟩]) = some 0 ∧
      maxOfPops (castPops [⟨none, none⟩]) = some 0) ∧
    (∀ x ∈ ([1] : List ℚ), 0 ≤ x) ∧
    meanOfPops [0, 1] = some (([0, 1] : List ℚ).sum / (([0, 1] : List ℚ).length : ℚ)) ∧
    meanOfPops [1] = some (([1] : List ℚ).sum / (([1] : List ℚ).length : ℚ)) ∧
    (([0, 1] : List ℚ).sum / (([0, 1] : List ℚ).length : ℚ) ≤
        ([1] : List ℚ).sum / (([1] : List ℚ).length : ℚ) ∧
      (0 < ([1] : List ℚ).sum / (([1] : List ℚ).length : ℚ) →
        ([0, 1] : List ℚ).sum / (([0, 1] : List ℚ).length : ℚ) <
          ([1] : List ℚ).sum / (([1] : List ℚ).length : ℚ))) :=
  ⟨by decide, by decide,
    claim_C10_zero_substitution_amended.2.1 [⟨none, none⟩] (by decide) (by decide),
    by decide, rfl, rfl,
    claim_C10_zero_substitution_amended.2.2.2 [1] _ _ (by decide) rfl rfl⟩

/-- The written records are the successful enrichments, in order. -/
theorem scrape_loop_fst (f : JScalar → Except String MergedRecord) (ids : List JScalar) :
    (scrape_loop f ids).1 = ids.filterMap (fun i => (f i).toOption) := by
  induction ids with
  | nil => rfl
  | cons id rest ih =>
    cases hf : f id <;> simp [scrape_loop, hf, Except.toOption, ih]

/-- The reported failures are the failing candidates, in order. -/
theorem scrape_loop_snd (f : JScalar → Except String MergedRecord) (ids : List JScalar) :
    (scrape_loop f ids).2 = ids.filter (fun i => !(isOkB (f i))) := by
  induction ids with
  | nil => rfl
  | cons id rest ih =>
    cases hf : f id <;> simp [scrape_loop, hf, isOkB, ih]

/-- Every candidate is attempted exactly once: writes plus failures cover
the list. -/
theorem scrape_loop_length (f : JScalar → Except String MergedRecord) (ids : List JScalar) :
    (scrape_loop f ids).1.length + (scrape_loop f ids).2.length = ids.length := by
  induction ids with
  | nil => rfl
  | cons id rest ih =>
    cases hf : f id <;> simp [scrape_loop, hf] <;> omega

/-- C3: if enrichment fails for exactly one candidate of the list, the
orchestrator loop writes exactly N-1 records, reports exactly that one
failure, writes nothing that does not come from a successful enrichment,
and still completes with every candidate attempted once. -/
theorem claim_C3_single_failure_isolation (enrichFn : JScalar → Except String MergedRecord)
    (ids : List JScalar)
    (h : (ids.filter (fun i => !(isOkB (enrichFn i)))).length = 1) :
    (scrape_loop enrichFn ids).1.length = ids.length - 1 ∧
    (scrape_loop enrichFn ids).2.length = 1 ∧
    (∀ r ∈ (scrape_loop enrichFn ids).1, ∃ i ∈ ids, enrichFn i = .ok r) ∧
    (∀ i ∈ ids, isOkB (enrichFn i) = false → i ∈ (scrape_loop enrichFn ids).2) ∧
    (scrape_loop enrichFn ids).1.length + (scrape_loop enrichFn ids).2.length = ids.length := by
  have hsnd := scrape_loop_snd enrichFn ids
  have hlen := scrape_loop_length enrichFn ids
  have h2 : (scrape_loop enrichFn ids).2.length = 1 := by rw [hsnd]; exact h
  refine ⟨by omega, h2, ?_, ?_, hlen⟩
  · intro r hr
    rw [scrape_loop_fst] at hr
    obtain ⟨i, hi, hop⟩ := List.mem_filterMap.1 hr
    refine ⟨i, hi, ?_⟩
    cases hf : enrichFn i <;> rw [hf] at hop <;> simp [Except.toOption] at hop
    rw [hop]
  · intro i hi hfail
    rw [hsnd]
    exact List.mem_filter.2 ⟨hi, by simp [hfail]⟩

/-- A concrete merged record used to exercise the orchestrator loop. -/
def blankMerged : MergedRecord :=
  { movie_id := Json.null, title := none, release_date := none,
    budget := none, revenue_worldwide := none, runtime := none, genres := [],
    imdb_id := none, franchise := false, cast_popularity_mean := none,
    cast_popularity_max := none, director_popularity := none,
    original_language := none, imdb_rating := none, imdb_votes := none,
    mpaa_rating := none, domestic_box_office := none,
    rotten_tomatoes_score := none, metacritic_score := none,
    awards_text := none }

/-- An enrichment oracle that fails exactly on candidate 1. -/
def failOn1 (i : JScalar) : Except String MergedRecord :=
  if i = JScalar.num 1 then .error "boom" else .ok blankMerged

/-- C3 witness: two candidates, the first of which fails. -/
theorem claim_C3_witness :
    (([JScalar.num 1, JScalar.num 2].filter
      (fun i => !(isOkB (failOn1 i)))).length = 1) ∧
    (scrape_loop failOn1 [JScalar.num 1, JScalar.num 2]).1.length =
      [JScalar.num 1, JScalar.num 2].length - 1 :=
  ⟨rfl,
    (claim_C3_single_failure_isolation failOn1 [JScalar.num 1, JScalar.num 2] rfl).1⟩

/-- Adding to the running set preserves freedom from duplicates. -/
theorem setAdd_nodup (s : List JScalar) (x : JScalar) (h : s.Nodup) :
    (setAdd s x).Nodup := by
  unfold setAdd
  by_cases hx : x ∈ s
  · simp [hx, h]
  · rw [if_neg hx, List.nodup_append]
    refine ⟨h, List.nodup_singleton x, ?_⟩
    intro a ha hb
    simp at hb
    subst hb
    exact hx ha

/-- Membership after adding to the running set. -/
theorem mem_setAdd (s : List JScalar) (x y : JScalar) :
    y ∈ setAdd s x ↔ y ∈ s ∨ y = x := by
  unfold setAdd
  by_cases hx : x ∈ s
  · rw [if_pos hx]
    refine ⟨Or.inl, fun h => ?_⟩
    rcases h with h | h
    · exact h
    · exact h ▸ hx
  · rw [if_neg hx]
    simp

/-- Adding to the running set grows it by at most one element. -/
theorem setAdd_length (s : List JScalar) (x : JScalar) :
    (setAdd s x).length ≤ s.length + 1 := by
  unfold setAdd
  by_cases hx : x ∈ s <;> simp [hx]

/-- Folding a page's identifiers into the running set keeps it
duplicate-free. -/
theorem foldl_setAdd_nodup (xs : List JScalar) :
    ∀ s : List JScalar, s.Nodup → (xs.foldl setAdd s).Nodup := by
  induction xs with
  | nil => intro s hs; exact hs
  | cons x xs ih => intro s hs; exact ih _ (setAdd_nodup s x hs)

/-- Membership after folding a page's identifiers into the running set. -/
theorem mem_foldl_setAdd (xs : List JScalar) :
    ∀ (s : List JScalar) (y : JScalar), y ∈ xs.foldl setAdd s ↔ y ∈ s ∨ y ∈ xs := by
  induction xs with
  | nil => intro s y; simp
  | cons x xs ih =>
    intro s y
    rw [List.foldl_cons, ih, mem_setAdd]
    simp
    tauto

/-- Folding a page's identifiers grows the set by at most the page size. -/
theorem foldl_setAdd_length (xs : List JScalar) :
    ∀ s : List JScalar, (xs.foldl setAdd s).length ≤ s.length + xs.length := by
  induction xs with
  | nil => intro s; simp
  | cons x xs ih =>
    intro s
    rw [List.foldl_cons]
    calc (xs.foldl setAdd (setAdd s x)).length
        ≤ (setAdd s x).length + xs.length := ih _
      _ ≤ s.length + 1 + xs.length := by
          have := setAdd_length s x
          omega
      _ = s.length + (x :: xs).length := by simp; omega

/-- A successful page loop over one year: the set stays duplicate-free,
collects exactly the page identifiers on top of the incoming set, and grows
by at most the total page sizes. -/
theorem pageFold_ok (fetch : Int → Int → Json) (y : Int) :
    ∀ (pages : List Int) (acc l : List JScalar),
      pageFold fetch y pages acc = .ok l → acc.Nodup →
      l.Nodup ∧
      (∀ x, x ∈ l ↔ x ∈ acc ∨ ∃ p ∈ pages, x ∈ pageIdsD fetch y p) ∧
      l.length ≤ acc.length + (pages.map (fun p => (pageIdsD fetch y p).length)).sum := by
  intro pages
  induction pages with
  | nil =>
    intro acc l h hnd
    rw [pageFold, List.foldlM_nil] at h
    cases h
    simp [hnd]
  | cons p ps ih =>
    intro acc l h hnd
    rw [pageFold, List.foldlM_cons] at h
    cases hpi : pageIds (fetch y p) with
    | error e => rw [hpi] at h; simp [Bind.bind, Except.bind] at h
    | ok xs =>
      rw [hpi] at h
      simp only [Bind.bind, Except.bind, pure, Except.pure] at h
      have h' : pageFold fetch y ps (xs.foldl setAdd acc) = .ok l := h
      have hnd' : (xs.foldl setAdd acc).Nodup := foldl_setAdd_nodup xs acc hnd
      obtain ⟨hl, hmem, hlen⟩ := ih (xs.foldl setAdd acc) l h' hnd'
      have hxs : pageIdsD fetch y p = xs := by
        rw [pageIdsD, hpi]
        rfl
      refine ⟨hl, ?_, ?_⟩
      · intro x
        rw [hmem x, mem_foldl_setAdd]
        simp only [List.mem_cons]
        constructor
        · rintro ((hx | hx) | ⟨q, hq, hxq⟩)
          · exact Or.inl hx
          · exact Or.inr ⟨p, Or.inl rfl, hxs.symm ▸ hx⟩
          · exact Or.inr ⟨q, Or.inr hq, hxq⟩
        · rintro (hx | ⟨q, (rfl | hq), hxq⟩)
          · exact Or.inl (Or.inl hx)
          · exact Or.inl (Or.inr (hxs ▸ hxq))
          · exact Or.inr ⟨q, hq, hxq⟩
      · have hstep := foldl_setAdd_length xs acc
        rw [List.map_cons, List.sum_cons, hxs]
        omega

/-- A successful year loop: as `pageFold_ok`, across all years. -/
theorem yearFold_ok (fetch : Int → Int → Json) (pages : List Int) :
    ∀ (years : List Int) (acc l : List JScalar),
      yearFold fetch years pages acc = .ok l → acc.Nodup →
      l.Nodup ∧
      (∀ x, x ∈ l ↔ x ∈ acc ∨ ∃ y ∈ years, ∃ p ∈ pages, x ∈ pageIdsD fetch y p) ∧
      l.length ≤ acc.length +
        (years.map (fun y => (pages.map (fun p => (pageIdsD fetch y p).length)).sum)).sum := by
  intro years
  induction years with
  | nil =>
    intro acc l h hnd
    rw [yearFold, List.foldlM_nil] at h
    cases h
    simp [hnd]
  | cons y ys ih =>
    intro acc l h hnd
    rw [yearFold, List.foldlM_cons] at h
    cases hpf : pageFold fetch y pages acc with
    | error e => rw [hpf] at h; simp [Bind.bind, Except.bind] at h
    | ok acc' =>
      rw [hpf] at h
      simp only [Bind.bind, Except.bind] at h
      have h' : yearFold fetch ys pages acc' = .ok l := h
      obtain ⟨hnd', hmem', hlen'⟩ := pageFold_ok fetch y pages acc acc' hpf hnd
      obtain ⟨hl, hmem, hlen⟩ := ih acc' l h' hnd'
      refine ⟨hl, ?_, ?_⟩
      · intro x
        rw [hmem x]
        simp only [List.mem_cons, hmem' x]
        constructor
        · rintro ((hx | ⟨p, hp, hxp⟩) | ⟨z, hz, p, hp, hxp⟩)
          · exact Or.inl hx
          · exact Or.inr ⟨y, Or.inl rfl, p, hp, hxp⟩
          · exact Or.inr ⟨z, Or.inr hz, p, hp, hxp⟩
        · rintro (hx | ⟨z, (rfl | hz), p, hp, hxp⟩)
          · exact Or.inl (Or.inl hx)
          · exact Or.inl (Or.inr ⟨p, hp, hxp⟩)
          · exact Or.inr ⟨z, hz, p, hp, hxp⟩
      · rw [List.map_cons, List.sum_cons]
        omega

/-- C7: a successful discovery returns a duplicate-free candidate list that
contains exactly the identifiers appearing in the fetched pages' results,
and whose size is at most the total number of results returned. -/
theorem claim_C7_discovery_dedup (fetch : Int → Int → Json)
    (start_year end_year pages_per_year : Int) (l : List JScalar)
    (h : discover_movies fetch start_year end_year pages_per_year = .ok l) :
    l.Nodup ∧
    (∀ x, x ∈ l ↔ ∃ y ∈ pyRange start_year (end_year + 1),
      ∃ p ∈ pyRange 1 (pages_per_year + 1), x ∈ pageIdsD fetch y p) ∧
    l.length ≤ ((pyRange start_year (end_year + 1)).map
      (fun y => ((pyRange 1 (pages_per_year + 1)).map
        (fun p => (pageIdsD fetch y p).length)).sum)).sum := by
  rw [discover_movies] at h
  obtain ⟨hl, hmem, hlen⟩ :=
    yearFold_ok fetch (pyRange 1 (pages_per_year + 1))
      (pyRange start_year (end_year + 1)) [] l h List.nodup_nil
  refine ⟨hl, ?_, ?_⟩
  · intro x
    rw [hmem x]
    simp
  · simpa using hlen

/-- C7 witness: one year and one page whose results repeat one identifier
twice; the candidate set is the singleton. -/
theorem claim_C7_witness :
    discover_movies (fun _ _ => Json.obj [("results", Json.arr
        [Json.obj [("id", Json.num 1)], Json.obj [("id", Json.num 1)]])]) 2000 2000 1 =
      .ok [JScalar.num 1] ∧
    ([JScalar.num 1].Nodup ∧
      (∀ x, x ∈ [JScalar.num 1] ↔ ∃ y ∈ pyRange 2000 (2000 + 1),
        ∃ p ∈ pyRange 1 (1 + 1), x ∈ pageIdsD (fun _ _ => Json.obj [("results", Json.arr
          [Json.obj [("id", Json.num 1)], Json.obj [("id", Json.num 1)]])]) y p) ∧
      [JScalar.num 1].length ≤ ((pyRange 2000 (2000 + 1)).map
        (fun y => ((pyRange 1 (1 + 1)).map
          (fun p => (pageIdsD (fun _ _ => Json.obj [("results", Json.arr
            [Json.obj [("id", Json.num 1)], Json.obj [("id", Json.num 1)]])]) y p).length)).sum)).sum) :=
  ⟨rfl,
    claim_C7_discovery_dedup (fun _ _ => Json.obj [("results", Json.arr
      [Json.obj [("id", Json.num 1)], Json.obj [("id", Json.num 1)]])]) 2000 2000 1
      [JScalar.num 1] rfl⟩

end MovieScrape
